import Mathlib

/-!
Shallow embedding of the Cray BOA (Boot Orchestration Agent) repository,
`src/cray/boa`.  Each definition models one function or data structure of the
Python source; theorems at the end of the file settle the specification
claims against those definitions.
-/

namespace Boa

/-! ### CAPMC client: `capmcclient.parse_response` -/

/-- One entry of the `xnames` list of a CAPMC power-action response:
`{"xname": ..., "e": ..., "err_msg": ...}` (the per-entry `e` is unused
by `parse_response`). -/
structure XnameErr where
  xname : String
  err_msg : String
deriving DecidableEq, Repr

/-- A CAPMC power-action JSON response as consumed by
`capmcclient.parse_response`: the fields `e`, `err_msg`, `undefined` and
`xnames` may each be absent (`none`). -/
structure CapmcResponse where
  e : Option Int := none
  err_msg : Option String := none
  undefined : Option (List String) := none
  xnames : Option (List XnameErr) := none
deriving Repr

/-- The `reasons_for_failure` value: a `defaultdict(list)` mapping an error
message to the list of xnames suffering from it. -/
def ReasonMap : Type := String → List String

/-- The empty `defaultdict(list)`. -/
def ReasonMap.empty : ReasonMap := fun _ => []

/-- Model of `reasons_for_failure[err_msg].append(xname)`. -/
def addReason (rs : ReasonMap) (msg x : String) : ReasonMap :=
  fun m => if m = msg then rs m ++ [x] else rs m

/-- Model of `reasons_for_failure[msg].extend(nodes)`. -/
def extendReason (rs : ReasonMap) (msg : String) (nodes : List String) : ReasonMap :=
  fun m => if m = msg then rs m ++ nodes else rs m

/-- Embedding of `capmcclient.parse_response(response, target_nodes)`.
Returns the failed-node set and the reasons-for-failure map, following the
source line by line: the happy path for `e` absent or `0`; union of the
`undefined` list; grouping of the `xnames` entries by `err_msg` (the failed
set is the union of the grouped values, i.e. all listed xnames); and the
error-37 enrichment over `target_nodes`. -/
def parse_response (r : CapmcResponse) (target_nodes : List String) :
    Finset String × ReasonMap :=
  if r.e = none ∨ r.e = some 0 then
    (∅, ReasonMap.empty)
  else
    let failed1 : Finset String :=
      match r.undefined with
      | some u => ∅ ∪ u.toFinset
      | none => ∅
    let st2 : Finset String × ReasonMap :=
      match r.xnames with
      | some xs =>
        let reasons := xs.foldl (fun rs x => addReason rs x.err_msg x.xname) ReasonMap.empty
        (failed1 ∪ (xs.map XnameErr.xname).toFinset, reasons)
      | none => (failed1, ReasonMap.empty)
    if r.e = some 37 then
      let emsg :=
        match r.err_msg with
        | some m => m
        | none => "CAPMC node lock error 37"
      let potentially_locked := target_nodes.filter (fun n => n ∉ st2.1)
      (st2.1 ∪ potentially_locked.toFinset, extendReason st2.2 emsg potentially_locked)
    else
      st2

/-! ### Agent phase table: `BootSetAgent.PHASES` and `phase_operations` -/

/-- The four operations a BOA session can request (`assert operation in
self.PHASES` restricts the operation to these). -/
inductive Operation where
  | boot
  | shutdown
  | reboot
  | configure
deriving DecidableEq, Repr

/-- Embedding of the `BootSetAgent.PHASES` class dictionary mapping each
operation to its list of phase names. -/
def PHASES : Operation → List String
  | .shutdown => ["shutdown"]
  | .configure => ["stage_configuration", "wait_for_configuration"]
  | .boot => ["stage_configuration", "boot", "wait_for_configuration"]
  | .reboot => ["stage_configuration", "shutdown", "boot", "wait_for_configuration"]

/-- Embedding of the `BootSetAgent.phase_operations` property:
`[getattr(self, phase) for phase in self.phases]`, with `getattr`
abstracted as a dispatch function from phase names to phase actions. -/
def phase_operations {α : Type} (dispatch : String → α) (op : Operation) : List α :=
  (PHASES op).map dispatch

/-! ### Node-set limit grammar: `BootSetAgent._apply_limit` -/

/-- The inventory mapping used by `_apply_limit`: `limit in self.inventory`
and `self.inventory[limit]`; `none` models a name that is not an inventory
entry. -/
def Inventory : Type := String → Option (Finset String)

/-- Accumulator-passing model of Python `s.split(',')` over the character
list of the string. -/
def splitCommaAux : List Char → List Char → List String
  | [], cur => [String.mk cur.reverse]
  | c :: rest, cur =>
    if c = ',' then String.mk cur.reverse :: splitCommaAux rest []
    else splitCommaAux rest (c :: cur)

/-- Model of Python `s.split(',')`: the comma-separated tokens of `s`
(an empty string yields the single empty token, as in Python). -/
def pySplitComma (s : String) : List String := splitCommaAux s.data []

/-- The set a single (already prefix-stripped) limit token denotes inside
`_apply_limit`: `limit_nodes = set([limit])`, overridden to `self._nodes`
when the token is `all` or `*`, or to `self.inventory[limit]` when the
token names an inventory entry. -/
def limitTokenNodes (nodes : Finset String) (inv : Inventory) (tok : String) :
    Finset String :=
  if tok = "all" ∨ tok = "*" then nodes
  else
    match inv tok with
    | some s => s
    | none => {tok}

/-- One iteration of the `for limit in self.session_limit.split(',')` loop of
`_apply_limit`: a `&` prefix selects intersection, a `!` prefix selects
difference, anything else union, and the prefix (when present) is stripped
before the token is resolved.  On an empty token the source raises
`IndexError` from `limit[0]`, modelled as `none`. -/
def applyLimitStep (nodes : Finset String) (inv : Inventory)
    (acc : Finset String) (tok : String) : Option (Finset String) :=
  match tok.data with
  | [] => none
  | c :: rest =>
    if c = '&' then some (acc ∩ limitTokenNodes nodes inv (String.mk rest))
    else if c = '!' then some (acc \ limitTokenNodes nodes inv (String.mk rest))
    else some (acc ∪ limitTokenNodes nodes inv tok)

/-- Embedding of `BootSetAgent._apply_limit`: when the session limit string
is falsy (empty) all nodes are allowed; otherwise the comma-separated
tokens are folded left-to-right starting from the empty accumulator and
the node set is intersected with the result; a raised `IndexError` (an
empty token) propagates as `none`. -/
def apply_limit (nodes : Finset String) (inv : Inventory) (session_limit : String) :
    Option (Finset String) :=
  if session_limit = "" then some nodes
  else
    match (pySplitComma session_limit).foldlM (applyLimitStep nodes inv) ∅ with
    | some limit_node_set => some (nodes ∩ limit_node_set)
    | none => none

/-- Spec-side denotation of a limit token, written from the claim wording:
`all` or `*` denotes the full set, a token naming an inventory entry
denotes that inventory set, any other token the singleton of the literal
token. -/
def limitTokenDenotes (nodes : Finset String) (inv : Inventory) (t : String) :
    Finset String :=
  if t = "all" ∨ t = "*" then nodes else (inv t).getD {t}

/-- Spec-side evaluation of one limit token, written from the claim
wording: a `&` prefix intersects the accumulator with the token's set, a
`!` prefix subtracts it, and no prefix unions it. -/
def resolveLimitStep (nodes : Finset String) (inv : Inventory)
    (acc : Finset String) (t : String) : Finset String :=
  match t.data with
  | [] => acc ∪ limitTokenDenotes nodes inv t
  | c :: rest =>
    if c = '&' then acc ∩ limitTokenDenotes nodes inv (String.mk rest)
    else if c = '!' then acc \ limitTokenDenotes nodes inv (String.mk rest)
    else acc ∪ limitTokenDenotes nodes inv t

/-- Spec-side definition of the limit resolution, written from the claim
wording: evaluate the comma-separated tokens left to right over the boot
set's resolved node union, then intersect the original node set with the
accumulated result. -/
def resolveLimitSpec (nodes : Finset String) (inv : Inventory) (limit : String) :
    Finset String :=
  nodes ∩ ((pySplitComma limit).foldl (resolveLimitStep nodes inv) ∅)

/-! ### Status records: phase categories, `move_nodes`,
`move_to_not_started` (bosclient.PhaseStatus) -/

/-- The five node categories of a phase status record
(`PhaseStatus.ALL_CATEGORIES`). -/
inductive Category where
  | not_started
  | succeeded
  | failed
  | excluded
  | in_progress
deriving DecidableEq, Repr

/-- A phase's category assignment: which category each node currently
belongs to (every node is in exactly one category, so a function). -/
def PhaseState : Type := String → Category

/-- Embedding of `PhaseStatus.ALL_NOT_STARTED = ALL_CATEGORIES −
set(['not_started'])`: the four source categories a node is pulled out of. -/
def ALL_NOT_STARTED : List Category :=
  [Category.succeeded, Category.failed, Category.excluded, Category.in_progress]

/-- Effect of `PhaseStatus.move_nodes(nodes, source, destination)` on a
phase's category assignment: every listed node currently in the source
category moves to the destination category. -/
def moveNodes (σ : PhaseState) (nodes : Finset String)
    (src dst : Category) : PhaseState :=
  fun n => if n ∈ nodes ∧ σ n = src then dst else σ n

/-- Embedding of `PhaseStatus.move_to_not_started(nodes)`: for each source
category in `ALL_NOT_STARTED`, move the nodes to `not_started`. -/
def move_to_not_started (σ : PhaseState) (nodes : Finset String) : PhaseState :=
  ALL_NOT_STARTED.foldl (fun σ cat => moveNodes σ nodes cat Category.not_started) σ

/-- Embedding of the re-entrant normalisation loop in
`BootSetAgent.boot_set_status`: `for phase in self._boot_set_status:
phase.move_to_not_started(self.nodes)`, applied to every phase of the boot
set status record. -/
def normalize_phases (record : List PhaseState) (nodes : Finset String) :
    List PhaseState :=
  record.map (fun σ => move_to_not_started σ nodes)

/-! ### Status record creation: `bosclient.raise_or_log`,
`SessionStatus.CreateOrReference`, `BootSetStatus.CreateOrReference` -/

/-- The exceptions flowing through the bosclient status code.
`statusAlreadyExists` and `baseBos` (covering `BadSession`,
`BadBootStatusUpdate`, `BadBootSetUpdate`, `InvalidPhase` and the bare
`BaseBosStatusApiException`) are subclasses of `BaseBosStatusApiException`;
`httpError` models a re-raised `requests.exceptions.HTTPError`, which is
not. -/
inductive BosExc where
  | statusAlreadyExists
  | baseBos
  | httpError (code : Nat)
deriving DecidableEq, Repr

/-- Which exceptions the `raise_or_log` decorator catches
(`except BaseBosStatusApiException`). -/
def isBaseBosStatusApiException : BosExc → Bool
  | .httpError _ => false
  | _ => true

/-- The module-level `LOSSY` switch of `bosclient`, as shipped. -/
def LOSSY : Bool := true

/-- Embedding of the `raise_or_log` decorator: a caught
`BaseBosStatusApiException` is logged and swallowed when lossy, re-raised
otherwise; any other exception propagates. -/
def raise_or_log (lossy : Bool) (r : Except BosExc Unit) : Except BosExc Unit :=
  match r with
  | .ok _ => .ok ()
  | .error e =>
    if isBaseBosStatusApiException e then
      if lossy then .ok () else .error e
    else .error e

/-- Outcome of an HTTP request as seen through `raise_for_status`. -/
inductive HttpOutcome where
  | ok
  | err (code : Nat)
deriving DecidableEq, Repr

/-- The body of `BootSetStatus.__init__` after the record body is built:
POST the record; a 409 raises `StatusAlreadyExists`, any other HTTP error
is re-raised as the bare `requests` HTTPError.  (The decorator
`raise_or_log` wrapping `__init__` is applied separately.) -/
def bootSetStatusInitBody (post : HttpOutcome) : Except BosExc Unit :=
  match post with
  | .ok => .ok ()
  | .err code =>
    if code = 409 then .error .statusAlreadyExists
    else .error (.httpError code)

/-- The body of `SessionStatus.__init__`: a 409 raises
`StatusAlreadyExists`, any other HTTP error raises
`BaseBosStatusApiException(err)`. -/
def sessionStatusInitBody (post : HttpOutcome) : Except BosExc Unit :=
  match post with
  | .ok => .ok ()
  | .err code =>
    if code = 409 then .error .statusAlreadyExists
    else .error .baseBos

/-- The two kinds of handle `CreateOrReference` can produce: a
normally-constructed instance (the `cls(...)` path, whose `__init__` may
have had its exception swallowed by `raise_or_log`), or a `byref` binding. -/
inductive Handle where
  | created
  | byref
deriving DecidableEq, Repr

/-- Embedding of `CreateOrReference`: `cls(...)` runs the decorated
`__init__` (so `raise_or_log` applies first); only a `StatusAlreadyExists`
escaping the decorator reaches the `except` clause and yields the `byref`
handle; any other escaping exception propagates; otherwise the
normally-constructed instance is returned. -/
def createOrReference (lossy : Bool) (initBody : Except BosExc Unit) :
    Except BosExc Handle :=
  match raise_or_log lossy initBody with
  | .ok _ => .ok .created
  | .error .statusAlreadyExists => .ok .byref
  | .error e => .error e

/-- `BootSetStatus.CreateOrReference` as shipped (decorated `__init__`,
module-level lossy switch). -/
def bootSetCreateOrReference (lossy : Bool) (post : HttpOutcome) :
    Except BosExc Handle :=
  createOrReference lossy (bootSetStatusInitBody post)

/-- `SessionStatus.CreateOrReference` as shipped. -/
def sessionCreateOrReference (lossy : Bool) (post : HttpOutcome) :
    Except BosExc Handle :=
  createOrReference lossy (sessionStatusInitBody post)

/-- An update call (`move_nodes`, `update_metadata`, `update_errors`):
the undecorated body raises a `BaseBosStatusApiException` subclass
(`BadBootSetUpdate` or `BadBootStatusUpdate`) on any HTTP failure, and the
`raise_or_log` decorator then applies. -/
def statusUpdateCall (lossy : Bool) (patch : HttpOutcome) : Except BosExc Unit :=
  raise_or_log lossy
    (match patch with
     | .ok => .ok ()
     | .err _ => .error .baseBos)

/-! ### Boot-script registrar: `bssclient.set_bss_urls` -/

/-- HTTP method of a request issued by `set_bss_urls`. -/
inductive Method where
  | get
  | put
  | post
deriving DecidableEq, Repr

/-- A boot-parameter assignment request issued to BSS:
`{hosts, params, kernel, initrd}` with its HTTP method. -/
structure BssRequest where
  method : Method
  hosts : Finset String
  params : String
  kernel : String
  initrd : String
deriving DecidableEq

/-- The top-level names the module `cray.boa.rootfs.factory` defines when
it is loaded (its imports, module constant and class definition, from
`rootfs/factory.py`).  It defines `ProviderFactory`; no
`ProvisionerFactory` exists. -/
def rootfsFactoryDefinedNames : List String :=
  ["importlib", "logging", "ProviderNotImplemented", "call_logger",
   "LOGGER", "ProviderFactory"]

/-- Errors a `set_bss_urls` call can surface: the `ImportError` raised
when loading `cray.boa.bssclient` (its line 8 names a symbol,
`ProvisionerFactory`, that `rootfs.factory` does not define), or an HTTP
error from one of the requests. -/
inductive BssError where
  | importError
  | httpError (code : Nat)
deriving DecidableEq

/-- Embedding of the import statements executed when `bssclient.py` is
loaded: the `from .rootfs.factory import ProvisionerFactory` at line 8
succeeds only if the name exists among the names `rootfs.factory`
defines; otherwise loading the module raises `ImportError`, and nothing
defined in it — in particular `set_bss_urls`, which `agent.py` imports
from it — ever becomes available. -/
def bssclientImport : Except BssError Unit :=
  if "ProvisionerFactory" ∈ rootfsFactoryDefinedNames then Except.ok ()
  else Except.error BssError.importError

/-- Embedding of `bssclient.set_bss_urls`.  Calling the function first
requires its module to have loaded (`bssclientImport`); the body would
also resolve `ProvisionerFactory` itself through the params assembly at
line 44 (bssclient.py:120).  `getOutcome` is the result of the bulk GET
used to discover which hosts BSS already knows: `.ok listing` carries the
union of the `hosts` lists of the response entries, `.error code` an HTTP
error status.  A 404 means no hosts are known; any other GET error
propagates.  On success the function returns the list of assignment
requests issued, in order: a PUT for the non-empty set of existing hosts,
then a POST for the non-empty set of non-existent hosts
(`node_set − existing`). -/
def set_bss_urls (node_set : Finset String)
    (getOutcome : Except Nat (Finset String))
    (params kernel initrd : String) : Except BssError (List BssRequest) :=
  match bssclientImport with
    | .error e => .error e
    | .ok _ =>
      match getOutcome with
        | .error code =>
          if code = 404 then
            -- existing_nodes_flag = False: every node is non-existent
            let non_existent := node_set
            .ok (if non_existent ≠ ∅ then
                  [⟨Method.post, non_existent, params, kernel, initrd⟩] else [])
          else .error (BssError.httpError code)
        | .ok listing =>
          let existing := listing
          let non_existent := node_set \ existing
          .ok ((if existing ≠ ∅ then
                  [⟨Method.put, existing, params, kernel, initrd⟩] else []) ++
               (if non_existent ≠ ∅ then
                  [⟨Method.post, non_existent, params, kernel, initrd⟩] else []))

/-! ### Configuration wait: `cfsclient.wait_for_configuration` -/

/-- What one polling round of the `wait_for_configuration` loop observes,
after the per-round classification of components: the number of components
newly reported `configured`, the number added to the round's failure set
(explicitly `failed`, vanished from CFS, or in an unhandled status), and
the number left `pending`. -/
structure CfsRound where
  configured : Nat
  failed : Nat
  pending : Nat
deriving DecidableEq, Repr

/-- How a `wait_for_configuration` call ends. -/
inductive CfsOutcome where
  | success
  | exhaustedRetries
  | timeout
deriving DecidableEq, Repr

/-- Result of a `wait_for_configuration` run: the outcome together with the
final values of `successful_components_count` and
`failed_components_count`, and whether the `while` loop ran to its
deadline (`expired = true` iff the post-loop timeout code was reached). -/
structure CfsRun where
  outcome : CfsOutcome
  succCount : Nat
  failCount : Nat
  expired : Bool
deriving DecidableEq, Repr

/-- The polling loop of `wait_for_configuration`.  Each list element is one
iteration granted before `end_time`; an exhausted list models the deadline
expiring.  Per iteration the success and failure tallies grow, a failure
tally exceeding `allowable` raises `CFSExhaustedRetries`, and an empty
pending set returns success; after the loop the timeout check compares the
success tally with `required`. -/
def waitForConfigurationLoop (allowable required : ℚ) :
    Nat → Nat → List CfsRound → CfsRun
  | s, f, [] =>
    ⟨if (s : ℚ) ≥ required then .success else .timeout, s, f, true⟩
  | s, f, r :: rest =>
    let s' := s + r.configured
    let f' := f + r.failed
    if (f' : ℚ) > allowable then ⟨.exhaustedRetries, s', f', false⟩
    else if r.pending = 0 then ⟨.success, s', f', false⟩
    else waitForConfigurationLoop allowable required s' f' rest

/-- Embedding of `cfsclient.wait_for_configuration` over the trace of
polling rounds: `allowable_failures = (1.0 − success_threshold) ·
nodes_count` and `nodes_required_for_success = nodes_count −
allowable_failures` exactly as in the source (real arithmetic modelled
over `ℚ`). -/
def wait_for_configuration (nodes_count : Nat) (success_threshold : ℚ)
    (rounds : List CfsRound) : CfsRun :=
  let allowable_failures := (1 - success_threshold) * nodes_count
  let nodes_required_for_success := (nodes_count : ℚ) - allowable_failures
  waitForConfigurationLoop allowable_failures nodes_required_for_success 0 0 rounds

/-! ### CAPMC power actions: `capmcclient.power` and
`capmcclient.graceful_shutdown` -/

/-- The exceptions `power` can raise before any request is issued, plus the
HTTP/JSON failures of the actual call. -/
inductive PowerExc where
  | valueError
  | capmcDeprecation
deriving DecidableEq, Repr

/-- Embedding of `capmcclient.power(nodes, state, force, ...)`: an empty
node collection returns immediately with empty results and no request; an
invalid state raises `ValueError`; nid-style names raise
`CapmcDeprecationException`; otherwise one POST is issued and its response
is run through `parse_response`.  The last component counts the requests
issued. -/
def power (nodes : List String) (state : String) (_force : Bool)
    (response : CapmcResponse) : Except PowerExc (Finset String × ReasonMap × Nat) :=
  if nodes = [] then .ok (∅, ReasonMap.empty, 0)
  else
    let st := state.toLower
    if ¬ (st = "off" ∨ st = "on") then .error .valueError
    else if (nodes.headD "").startsWith "nid" then .error .capmcDeprecation
    else
      let pr := parse_response response nodes
      .ok (pr.1, pr.2, 1)

/-- The `errors` dictionary accumulated by `graceful_shutdown`: an
association list with Python-`dict` update semantics. -/
abbrev ErrMap : Type := List (String × List String)

/-- Replace the value at a key, or append the pair when the key is new
(one step of `dict.update`). -/
def ErrMap.setKey (d : ErrMap) (k : String) (v : List String) : ErrMap :=
  if (d.lookup k).isSome then d.map (fun p => if p.1 = k then (k, v) else p)
  else d ++ [(k, v)]

/-- Model of `errors.update(new_entries)`. -/
def ErrMap.update (d upd : ErrMap) : ErrMap :=
  upd.foldl (fun d p => d.setKey p.1 p.2) d

/-- What one `status(...)` call inside `graceful_shutdown` yields after
`parse_response`: the `off` bucket of the status dictionary, the failed
nodes, and the error map. -/
structure StatusResult where
  off : Finset String
  failed : Finset String
  errors : ErrMap

/-- What one `power(...)` call inside `graceful_shutdown` yields: the
failed nodes and the error map. -/
structure PowerResult where
  failed : Finset String
  errors : ErrMap

/-- The environment a `graceful_shutdown` run interacts with: the initial
status query, the graceful power-off response, the status polls granted
within the grace window (`none` models a poll whose status request raised
and was logged), the forceful power-off response, and the polls granted
within the hard window.  An exhausted poll list models the corresponding
window expiring. -/
structure ShutdownEnv where
  initStatus : StatusResult
  gracefulPower : PowerResult
  gracefulPolls : List (Option StatusResult)
  forcefulPower : PowerResult
  forcefulPolls : List (Option StatusResult)

/-- Result of a `graceful_shutdown` run: the returned `(failed_nodes,
errors)` pair, the final value of the local `nodes_on` (the nodes still
not confirmed off when the function returns), and the number of CAPMC
requests issued. -/
structure ShutdownRun where
  failed : Finset String
  errors : ErrMap
  nodes_on : Finset String
  requests : Nat

/-- The error message `graceful_shutdown` weeds out of the graceful
power-off failures (those nodes are retried under force). -/
def exceededRetriesMsg : String := "exceeded retries waiting for component to be Off"

/-- The `while nodes_on and time.time() < end_time` polling loop of
`graceful_shutdown`: each granted poll re-queries status, removes `off`
and newly-failed nodes from `nodes_on`, accumulates failures and errors; a
raised status request (`none`) changes nothing.  Returns the new
`nodes_on`, `failed_nodes`, `errors` and the number of status requests
issued. -/
def statusWaitLoop :
    Finset String → Finset String → ErrMap → List (Option StatusResult) →
    Finset String × Finset String × ErrMap × Nat
  | nodes_on, failed, errors, [] => (nodes_on, failed, errors, 0)
  | nodes_on, failed, errors, p :: rest =>
    if nodes_on = ∅ then (nodes_on, failed, errors, 0)
    else
      match p with
      | none =>
        let r := statusWaitLoop nodes_on failed errors rest
        (r.1, r.2.1, r.2.2.1, r.2.2.2 + 1)
      | some s =>
        let r := statusWaitLoop ((nodes_on \ s.off) \ s.failed) (failed ∪ s.failed)
          (errors.update s.errors) rest
        (r.1, r.2.1, r.2.2.1, r.2.2.2 + 1)

/-- Embedding of `capmcclient.graceful_shutdown` over a response
environment: empty nodes return immediately; otherwise an initial status
query seeds `nodes_on = nodes − off − failed`, then the graceful and
forceful attempts each break early when `nodes_on` is empty, issue a
power-off (the graceful one weeding out the exceeded-retries nodes), and
poll until the window expires or `nodes_on` empties.  After the forceful
window the remaining `nodes_on` are only logged; the function returns
`(failed_nodes, errors)`. -/
def graceful_shutdown_run (nodes : Finset String) (env : ShutdownEnv) : ShutdownRun :=
  if nodes = ∅ then ⟨∅, [], ∅, 0⟩
  else
    let s0 := env.initStatus
    let nodes_on := (nodes \ s0.off) \ s0.failed
    let failed := (∅ : Finset String) ∪ s0.failed
    let errors := ErrMap.update [] s0.errors
    if nodes_on = ∅ then ⟨failed, errors, nodes_on, 1⟩
    else
      let pr := env.gracefulPower
      let failed_tmp := pr.failed \ ((pr.errors.lookup exceededRetriesMsg).getD []).toFinset
      let nodes_on := nodes_on \ failed_tmp
      let failed := failed ∪ failed_tmp
      let errors := errors.update pr.errors
      let w1 := statusWaitLoop nodes_on failed errors env.gracefulPolls
      if w1.1 = ∅ then ⟨w1.2.1, w1.2.2.1, w1.1, 2 + w1.2.2.2⟩
      else
        let pr2 := env.forcefulPower
        let nodes_on2 := w1.1 \ pr2.failed
        let failed2 := w1.2.1 ∪ pr2.failed
        let errors2 := ErrMap.update w1.2.2.1 pr2.errors
        let w2 := statusWaitLoop nodes_on2 failed2 errors2 env.forcefulPolls
        ⟨w2.2.1, w2.2.2.1, w2.1, 3 + w1.2.2.2 + w2.2.2.2⟩

/-- All nodes any status poll of a poll list reports as failed. -/
def pollFailures : List (Option StatusResult) → Finset String
  | [] => ∅
  | none :: rest => pollFailures rest
  | some s :: rest => s.failed ∪ pollFailures rest

/-- Every node attributed a per-node error by some response of the
environment: the initial status query, the two power-off calls, and the
polls of both windows. -/
def reportedFailures (env : ShutdownEnv) : Finset String :=
  env.initStatus.failed ∪ env.gracefulPower.failed ∪ pollFailures env.gracefulPolls ∪
    env.forcefulPower.failed ∪ pollFailures env.forcefulPolls

/-! ### Kernel boot parameter assembly:
`BootSetAgent.assemble_kernel_boot_parameters` with the `cpss3` rootfs
provider (`rootfs/cpss3.py`) -/

/-- The attribute names defined on `BootSetAgent` (class attributes,
methods, properties from the class body of `agent.py`, and the instance
attributes assigned in `__init__`).  Note that `artifact_info` is defined
and `artifact_paths` is not. -/
def bootSetAgentMembers : List String :=
  ["PHASES", "STATUS_FIELDS",
   "session_id", "session_template_id", "session_limit", "boot_set",
   "operation", "file_path", "failed_nodes",
   "bos_client", "session_template_uri", "session_uri", "session_data",
   "partition", "enable_cfs", "_cfs_data", "cfs_configuration",
   "cfs_clone_url", "cfs_branch", "cfs_playbook", "cfs_commit",
   "cfs_enabled", "boot_set_data", "node_list", "node_groups",
   "node_roles_groups", "path", "path_type", "etag",
   "session_template_kernel_parameters", "rootfs_provider",
   "rootfs_provider_passthrough", "assemble_kernel_boot_parameters",
   "do_stage", "nodes", "_apply_limit", "artifact_info", "cfs_client",
   "capmc_client", "smd_client", "session_status", "status_fields",
   "boot_set_status", "inventory", "preflight_check", "phases",
   "phase_operations", "stage_configuration", "wait_for_configuration",
   "_handle_environment_variables", "boot", "shutdown",
   "_session_data", "_bos_client", "_capmc_client", "_smd_client",
   "_boot_artifacts", "_session_status", "_boot_set_status",
   "_cfs_configuration", "_cfs_client", "_preflight_check", "_inventory"]

/-- A Python attribute value, as far as the cpss3 provider needs: the
`artifact_info` dictionary of boot-artifact paths is distinguished, every
other defined attribute is opaque. -/
inductive PyValue where
  | dict (d : List (String × String))
  | otherMember
deriving DecidableEq

/-- Python attribute lookup on a `BootSetAgent` instance: a name not
defined on the class or instance raises `AttributeError` (`none`). -/
def bootSetAgentGetattr (artifact_info : List (String × String)) (name : String) :
    Option PyValue :=
  if name ∈ bootSetAgentMembers then
    if name = "artifact_info" then some (PyValue.dict artifact_info)
    else some PyValue.otherMember
  else none

/-- Embedding of `CPSS3Provider.provider_field`:
`self.agent.artifact_paths['rootfs']`. -/
def cpss3_provider_field (artifact_info : List (String × String)) :
    Except String String :=
  match bootSetAgentGetattr artifact_info "artifact_paths" with
  | none => .error "AttributeError"
  | some (.dict d) =>
    match d.lookup "rootfs" with
    | some v => .ok v
    | none => .error "KeyError"
  | some _ => .error "TypeError"

/-- Embedding of `CPSS3Provider.provider_field_id`:
`self.agent.artifact_paths['rootfs_etag']`. -/
def cpss3_provider_field_id (artifact_info : List (String × String)) :
    Except String String :=
  match bootSetAgentGetattr artifact_info "artifact_paths" with
  | none => .error "AttributeError"
  | some (.dict d) =>
    match d.lookup "rootfs_etag" with
    | some v => .ok v
    | none => .error "KeyError"
  | some _ => .error "TypeError"

/-- Embedding of `RootfsProvider.__str__` for the cpss3 provider
(`PROTOCOL = 'craycps-s3'`): collect the truthy fields in order
protocol, provider_field, provider_field_id, passthrough, join them with
`:` and prepend `root=`. -/
def cpss3_root_parameter (artifact_info : List (String × String))
    (passthrough : String) : Except String String := do
  let fields1 := ["craycps-s3"]
  let f ← cpss3_provider_field artifact_info
  let fields2 := fields1 ++ (if f ≠ "" then [f] else [])
  let fid ← cpss3_provider_field_id artifact_info
  let fields3 := fields2 ++ (if fid ≠ "" then [fid] else [])
  let fields4 := fields3 ++ (if passthrough ≠ "" then [passthrough] else [])
  pure (if fields4 ≠ [] then "root=" ++ String.intercalate ":" fields4 else "")

/-- Embedding of `CPSS3Provider.nmd_field`: `nmd_data=url=<provider_field>,
etag=<provider_field_id>` with empty components omitted. -/
def cpss3_nmd_field (artifact_info : List (String × String)) :
    Except String String := do
  let f ← cpss3_provider_field artifact_info
  let fid ← cpss3_provider_field_id artifact_info
  let fields := (if f ≠ "" then ["url=" ++ f] else []) ++
    (if fid ≠ "" then ["etag=" ++ fid] else [])
  pure (if fields ≠ [] then "nmd_data=" ++ String.intercalate "," fields else "")

/-- Embedding of `BootSetAgent.assemble_kernel_boot_parameters` for a boot
set whose rootfs provider is `cpss3`: image-embedded parameters
(whitespace-split; `none` models a missing or unreadable boot-parameters
object), then the session template kernel parameters, then the rootfs
`root=` fragment, then the `nmd_data=` fragment, then
`bos_session_id=<session_id>`, joined with single spaces. -/
def assemble_kernel_boot_parameters_cpss3
    (artifact_info : List (String × String)) (image_params : Option String)
    (kernel_parameters passthrough session_id : String) : Except String String := do
  let pieces0 :=
    match image_params with
    | some raw => (raw.split Char.isWhitespace).filter (fun t => t ≠ "")
    | none => []
  let pieces1 := pieces0 ++ (if kernel_parameters ≠ "" then [kernel_parameters] else [])
  let rootfs ← cpss3_root_parameter artifact_info passthrough
  let pieces2 := pieces1 ++ (if rootfs ≠ "" then [rootfs] else [])
  let nmd ← cpss3_nmd_field artifact_info
  let pieces3 := pieces2 ++ (if nmd ≠ "" then [nmd] else [])
  pure (String.intercalate " " (pieces3 ++ ["bos_session_id=" ++ session_id]))

/-! ### Concrete fixtures used by counterexamples and witnesses -/

/-- A CAPMC response with error code 37, an explicit error message, one
`undefined` node and one per-xname error. -/
def c2ExResponse : CapmcResponse :=
  { e := some 37, err_msg := some "lock", undefined := some ["u1"],
    xnames := some [⟨"x1", "boom"⟩] }

/-- The nodes targeted by the request that produced `c2ExResponse`. -/
def c2ExTargets : List String := ["x1", "t1", "u1"]

/-- The resolved node union of the worked limit-grammar example. -/
def c3ExNodes : Finset String := {"n1", "n2", "n3", "n4", "n5"}

/-- The inventory of the worked limit-grammar example:
`computes ↦ {n1,n2,n3}`, `storage ↦ {n4,n5}`. -/
def c3ExInventory : Inventory := fun s =>
  if s = "computes" then some {"n1", "n2", "n3"}
  else if s = "storage" then some {"n4", "n5"}
  else none

/-- A shutdown environment in which every CAPMC response is error-free and
reports nothing powered off: the target nodes stay on through both
windows. -/
def c1Env : ShutdownEnv :=
  ⟨⟨∅, ∅, []⟩, ⟨∅, []⟩, [], ⟨∅, []⟩, []⟩

/-! ## Claim theorems -/

/-- C4: The list of phases executed for a Boot Set is a pure function of
the operation, equal to exactly: shutdown → [shutdown]; configure →
[stage_configuration, wait_for_configuration]; boot →
[stage_configuration, boot, wait_for_configuration]; reboot →
[stage_configuration, shutdown, boot, wait_for_configuration]; and the
agent dispatches these phase functions in exactly that order
(`phase_operations` is the phase list mapped through the dispatcher). -/
theorem c4_phase_table :
    PHASES Operation.shutdown = ["shutdown"] ∧
    PHASES Operation.configure = ["stage_configuration", "wait_for_configuration"] ∧
    PHASES Operation.boot = ["stage_configuration", "boot", "wait_for_configuration"] ∧
    PHASES Operation.reboot =
      ["stage_configuration", "shutdown", "boot", "wait_for_configuration"] ∧
    ∀ (α : Type) (dispatch : String → α) (op : Operation),
      phase_operations dispatch op = (PHASES op).map dispatch :=
  ⟨rfl, rfl, rfl, rfl, fun _ _ _ => rfl⟩

/-- C10: `power` called with an empty node collection (for any state,
force flag and response environment) and `graceful_shutdown` called with
an empty node collection both return immediately with an empty failed-node
set and an empty error map, issuing zero requests to CAPMC. -/
theorem c10_empty_nodes_noop :
    (∀ (state : String) (force : Bool) (response : CapmcResponse),
      power [] state force response = Except.ok (∅, ReasonMap.empty, 0)) ∧
    (∀ env : ShutdownEnv,
      graceful_shutdown_run ∅ env = ⟨∅, [], ∅, 0⟩) := by
  constructor
  · intro state force response
    rfl
  · intro env
    simp [graceful_shutdown_run]

/-- C5 counterexample: with the shipped `LOSSY = true`, a 409 Conflict on
the Boot-Set Status create POST does not yield a byref handle (the
`StatusAlreadyExists` raised inside the decorated `__init__` is swallowed
by `raise_or_log`, so `CreateOrReference` returns the normally-constructed
instance), and a non-409 HTTP error on Session Status creation does not
propagate (it is wrapped in a `BaseBosStatusApiException` and swallowed),
both contradicting the claim. -/
theorem c5_counterexample :
    bootSetCreateOrReference LOSSY (HttpOutcome.err 409) = Except.ok Handle.created ∧
    sessionCreateOrReference LOSSY (HttpOutcome.err 500) = Except.ok Handle.created := by
  constructor <;> rfl

/-- C5 (amended): with the shipped `LOSSY = true`, a 409 on the Boot-Set
Status create POST is swallowed by the `raise_or_log` decorator on
`__init__` and `CreateOrReference` returns the normally-constructed
handle; the byref path is taken only with lossy mode off.  A non-409 HTTP
error on Boot-Set Status creation propagates as the re-raised HTTP error;
on Session Status creation it is wrapped in a `BaseBosStatusApiException`
and swallowed.  Any HTTP failure on an update call (`move_nodes`,
`update_metadata`, `update_errors`) is logged and swallowed. -/
theorem c5_create_or_reference_lossy (post : HttpOutcome) (code : Nat)
    (h : code ≠ 409) :
    bootSetCreateOrReference true (HttpOutcome.err 409) = Except.ok Handle.created ∧
    bootSetCreateOrReference false (HttpOutcome.err 409) = Except.ok Handle.byref ∧
    bootSetCreateOrReference true (HttpOutcome.err code) =
      Except.error (BosExc.httpError code) ∧
    sessionCreateOrReference true (HttpOutcome.err code) = Except.ok Handle.created ∧
    statusUpdateCall true post = Except.ok () := by
  refine ⟨rfl, rfl, ?_, ?_, ?_⟩
  · simp [bootSetCreateOrReference, bootSetStatusInitBody, createOrReference,
      raise_or_log, isBaseBosStatusApiException, h]
  · simp [sessionCreateOrReference, sessionStatusInitBody, createOrReference,
      raise_or_log, isBaseBosStatusApiException, h]
  · cases post <;> rfl

/-- C5 witness: the amended theorem applied at a concrete failing PATCH
and the non-409 status code 500. -/
theorem c5_create_or_reference_lossy_witness :
    (500 ≠ 409) ∧
    (bootSetCreateOrReference true (HttpOutcome.err 409) = Except.ok Handle.created ∧
     bootSetCreateOrReference false (HttpOutcome.err 409) = Except.ok Handle.byref ∧
     bootSetCreateOrReference true (HttpOutcome.err 500) =
       Except.error (BosExc.httpError 500) ∧
     sessionCreateOrReference true (HttpOutcome.err 500) = Except.ok Handle.created ∧
     statusUpdateCall true (HttpOutcome.err 503) = Except.ok ()) :=
  ⟨by decide, c5_create_or_reference_lossy (HttpOutcome.err 503) 500 (by decide)⟩

/-- C9 (code bug): the registrar can never issue any request: loading
`cray.boa.bssclient` raises `ImportError` because its line 8 imports
`ProvisionerFactory` from `rootfs.factory`, which defines only
`ProviderFactory`; consequently every call of `set_bss_urls` — for every
host set, every bulk-GET outcome and every payload — fails with that
ImportError instead of splitting the hosts and sending the claimed PUT
requests. -/
theorem c9_set_bss_urls_import_error :
    ("ProvisionerFactory" ∉ rootfsFactoryDefinedNames) ∧
    ("ProviderFactory" ∈ rootfsFactoryDefinedNames) ∧
    ∀ (node_set : Finset String) (getOutcome : Except Nat (Finset String))
      (params kernel initrd : String),
      set_bss_urls node_set getOutcome params kernel initrd =
        Except.error BssError.importError := by
  refine ⟨by decide, by decide, ?_⟩
  intro node_set getOutcome params kernel initrd
  rfl

/-- C7 (code bug): for every agent artifact dictionary and every input,
assembling the kernel boot parameters with the cpss3 rootfs provider
raises `AttributeError`, because `CPSS3Provider.provider_field` reads
`self.agent.artifact_paths`, an attribute `BootSetAgent` does not define
(the agent defines `artifact_info`); the claimed composed command line is
never produced. -/
theorem c7_cpss3_attribute_error :
    ("artifact_paths" ∉ bootSetAgentMembers) ∧
    ("artifact_info" ∈ bootSetAgentMembers) ∧
    ∀ (artifact_info : List (String × String)) (image_params : Option String)
      (kernel_parameters passthrough session_id : String),
      assemble_kernel_boot_parameters_cpss3 artifact_info image_params
        kernel_parameters passthrough session_id = Except.error "AttributeError" := by
  refine ⟨by decide, by decide, ?_⟩
  intro artifact_info image_params kernel_parameters passthrough session_id
  rfl

/-- Helper for C6: pulling a node out of each of the four non-not_started
categories leaves every listed node in `not_started`, whatever category it
started in. -/
theorem move_to_not_started_mem (σ : PhaseState) (nodes : Finset String)
    (n : String) (hn : n ∈ nodes) :
    move_to_not_started σ nodes n = Category.not_started := by
  unfold move_to_not_started ALL_NOT_STARTED
  simp only [List.foldl_cons, List.foldl_nil]
  rcases hc : σ n <;> simp [moveNodes, hn, hc]

/-- Helper for C6: nodes outside the moved set keep their category. -/
theorem move_to_not_started_not_mem (σ : PhaseState) (nodes : Finset String)
    (n : String) (hn : n ∉ nodes) :
    move_to_not_started σ nodes n = σ n := by
  unfold move_to_not_started ALL_NOT_STARTED
  simp only [List.foldl_cons, List.foldl_nil]
  simp [moveNodes, hn]

/-- C6: when the agent (re-)enters a Boot Set, every phase of the boot set
status record is normalised (`normalize_phases` models the loop `for phase
in self._boot_set_status: phase.move_to_not_started(self.nodes)`): in
every resulting phase state, each of the agent's nodes — whatever of the
five categories it was left in by a previous run — has been moved from
each of the other four categories back into `not_started`, and nodes
outside the agent's node set are untouched. -/
theorem c6_reentry_normalization (record : List PhaseState)
    (nodes : Finset String) (σ : PhaseState)
    (hσ : σ ∈ normalize_phases record nodes) :
    (∀ n ∈ nodes, σ n = Category.not_started) ∧
    (∃ σ0 ∈ record, ∀ n ∉ nodes, σ n = σ0 n) := by
  rcases List.mem_map.mp hσ with ⟨σ0, hσ0, rfl⟩
  refine ⟨fun n hn => move_to_not_started_mem σ0 nodes n hn,
    ⟨σ0, hσ0, fun n hn => move_to_not_started_not_mem σ0 nodes n hn⟩⟩

/-- C6 witness: a single pre-existing phase with every node parked in
`succeeded`; after normalisation node n1 is back in `not_started`. -/
theorem c6_reentry_normalization_witness :
    (∀ n ∈ ({"n1"} : Finset String),
      move_to_not_started (fun _ => Category.succeeded) {"n1"} n =
        Category.not_started) ∧
    (∃ σ0 ∈ [fun _ => Category.succeeded],
      ∀ n ∉ ({"n1"} : Finset String),
        move_to_not_started (fun _ => Category.succeeded) {"n1"} n = σ0 n) :=
  c6_reentry_normalization [fun _ => Category.succeeded] {"n1"}
    (move_to_not_started (fun _ => Category.succeeded) {"n1"})
    (by simp [normalize_phases])

/-- Helper for C2: the fold that groups the per-xname errors agrees with
filtering the entries by error message. -/
theorem foldl_addReason (xs : List XnameErr) (rs : ReasonMap) (m : String) :
    (xs.foldl (fun rs x => addReason rs x.err_msg x.xname) rs) m =
      rs m ++ (xs.filter (fun x => x.err_msg = m)).map XnameErr.xname := by
  induction xs generalizing rs with
  | nil => simp
  | cons x xs ih =>
    simp only [List.foldl_cons, List.filter_cons]
    rw [ih]
    by_cases h : x.err_msg = m
    · simp [addReason, h]
    · simp [addReason, h, Ne.symm h]

/-- C2: `parse_response` returns empty outputs when `e` is absent or zero;
otherwise it unions the `undefined` list into the failed set and groups
the per-xname errors by `err_msg` (the failed set gaining every listed
xname); and when `e = 37` it additionally attributes the response error
message (defaulting to "CAPMC node lock error 37") to every target node
not already in the failed set, adding all such nodes to the failed set. -/
theorem c2_parse_response_cases (r : CapmcResponse) (targets : List String) :
    ((r.e = none ∨ r.e = some 0) →
      parse_response r targets = (∅, ReasonMap.empty)) ∧
    (¬ (r.e = none ∨ r.e = some 0) → r.e ≠ some 37 →
      (parse_response r targets).1 =
        (r.undefined.getD []).toFinset ∪
          ((r.xnames.getD []).map XnameErr.xname).toFinset ∧
      ∀ m, (parse_response r targets).2 m =
        ((r.xnames.getD []).filter (fun x => x.err_msg = m)).map XnameErr.xname) ∧
    (¬ (r.e = none ∨ r.e = some 0) → r.e = some 37 →
      (parse_response r targets).1 =
        ((r.undefined.getD []).toFinset ∪
          ((r.xnames.getD []).map XnameErr.xname).toFinset) ∪
          (targets.filter (fun n => n ∉
            (r.undefined.getD []).toFinset ∪
              ((r.xnames.getD []).map XnameErr.xname).toFinset)).toFinset ∧
      ∀ m, (parse_response r targets).2 m =
        ((r.xnames.getD []).filter (fun x => x.err_msg = m)).map XnameErr.xname ++
          (if m = r.err_msg.getD "CAPMC node lock error 37" then
            targets.filter (fun n => n ∉
              (r.undefined.getD []).toFinset ∪
                ((r.xnames.getD []).map XnameErr.xname).toFinset)
           else [])) := by
  obtain ⟨e, em, und, xs⟩ := r
  refine ⟨?_, ?_, ?_⟩
  · intro h
    simp only [parse_response]
    rw [if_pos h]
  · intro h h37
    simp only [parse_response]
    rw [if_neg h, if_neg h37]
    cases und <;> cases xs <;>
      refine ⟨by simp, fun m => by simp [foldl_addReason, ReasonMap.empty]⟩
  · intro h h37
    simp only [parse_response]
    rw [if_neg h, if_pos h37]
    cases und <;> cases xs <;> cases em <;>
      refine ⟨by simp, fun m => by
        simp [extendReason, foldl_addReason, ReasonMap.empty, Option.getD]
        try (split <;> simp)⟩

/-- C2 witness: the error-37 case evaluated on a concrete response with an
`undefined` node, one per-xname error, and three target nodes: the failed
set is the undefined node, the errored xname and the remaining target; the
per-xname error keeps its own group and the lock message is attributed to
the remaining target only. -/
theorem c2_parse_response_cases_witness :
    (¬ (c2ExResponse.e = none ∨ c2ExResponse.e = some 0)) ∧
    c2ExResponse.e = some 37 ∧
    (parse_response c2ExResponse c2ExTargets).1 = {"u1", "x1", "t1"} ∧
    (parse_response c2ExResponse c2ExTargets).2 "boom" = ["x1"] ∧
    (parse_response c2ExResponse c2ExTargets).2 "lock" = ["t1"] := by
  have h := (c2_parse_response_cases c2ExResponse c2ExTargets).2.2 (by decide) rfl
  refine ⟨by decide, rfl, ?_, ?_, ?_⟩
  · rw [h.1]; decide
  · rw [h.2 "boom"]; decide
  · rw [h.2 "lock"]; decide

/-- Helper for C3: the source-side token denotation agrees with the
spec-side one. -/
theorem limitTokenNodes_eq_denotes (nodes : Finset String) (inv : Inventory)
    (t : String) : limitTokenNodes nodes inv t = limitTokenDenotes nodes inv t := by
  unfold limitTokenNodes limitTokenDenotes
  cases h : inv t <;> simp [h]

/-- Helper for C3: on a non-empty token (the only case in which the source
does not raise `IndexError`), the source-side fold step agrees with the
spec-side one. -/
theorem applyLimitStep_nonempty (nodes : Finset String) (inv : Inventory)
    (acc : Finset String) (t : String) (h : t ≠ "") :
    applyLimitStep nodes inv acc t = some (resolveLimitStep nodes inv acc t) := by
  obtain ⟨data⟩ := t
  cases data with
  | nil => exact absurd rfl h
  | cons c cs =>
    simp only [applyLimitStep, resolveLimitStep]
    split_ifs <;> simp [limitTokenNodes_eq_denotes]

/-- Helper for C3: the monadic fold over tokens that are all non-empty
never raises and agrees with the spec-side fold. -/
theorem foldlM_applyLimitStep (nodes : Finset String) (inv : Inventory)
    (l : List String) (acc : Finset String) (h : ∀ t ∈ l, t ≠ "") :
    l.foldlM (applyLimitStep nodes inv) acc =
      some (l.foldl (resolveLimitStep nodes inv) acc) := by
  induction l generalizing acc with
  | nil => rfl
  | cons t rest ih =>
    rw [List.foldlM_cons, applyLimitStep_nonempty nodes inv acc t (h t (by simp))]
    simpa using ih _ (fun u hu => h u (List.mem_cons_of_mem t hu))

/-- C3: `_apply_limit` implements the claimed limit grammar: for every
non-empty comma-separated limit string whose tokens are all non-empty (an
empty token raises `IndexError` in the source), evaluated left to right,
`all` and `*` denote the full set, an inventory name its set, any other
token the singleton of the literal token; `&` intersects the accumulator,
`!` subtracts, no prefix unions; and the final resolved set is the
original node set intersected with the accumulated result.  On the worked
example (inventory computes ↦ {n1,n2,n3}, storage ↦ {n4,n5}, limit
"computes,!n2,&computes") the resolved set is {n1,n3}. -/
theorem c3_limit_grammar :
    (∀ (nodes : Finset String) (inv : Inventory) (s : String), s ≠ "" →
      (∀ t ∈ pySplitComma s, t ≠ "") →
      apply_limit nodes inv s = some (resolveLimitSpec nodes inv s)) ∧
    apply_limit c3ExNodes c3ExInventory "computes,!n2,&computes" =
      some {"n1", "n3"} := by
  constructor
  · intro nodes inv s hs htok
    unfold apply_limit resolveLimitSpec
    rw [if_neg hs, foldlM_applyLimitStep nodes inv _ ∅ htok]
  · decide

/-- C3 witness: the grammar equivalence applied to the limit string of the
worked example, whose three tokens are non-empty. -/
theorem c3_limit_grammar_witness :
    ("computes,!n2,&computes" ≠ "") ∧
    (∀ t ∈ pySplitComma "computes,!n2,&computes", t ≠ "") ∧
    apply_limit c3ExNodes c3ExInventory "computes,!n2,&computes" =
      some (resolveLimitSpec c3ExNodes c3ExInventory "computes,!n2,&computes") :=
  ⟨by decide, by decide,
    c3_limit_grammar.1 c3ExNodes c3ExInventory _ (by decide) (by decide)⟩

/-- Helper for C8: invariant of the polling loop.  Starting from a failure
tally within the allowable bound, the loop raises `CFSExhaustedRetries`
exactly when its final failure tally exceeds the bound; and when the loop
runs to its deadline, it returns success exactly when the final success
tally meets `required`, and raises the timeout exactly when it does
not. -/
theorem waitForConfigurationLoop_spec (allowable required : ℚ)
    (rounds : List CfsRound) (s f : Nat) (hf : (f : ℚ) ≤ allowable) :
    ((waitForConfigurationLoop allowable required s f rounds).outcome =
        CfsOutcome.exhaustedRetries ↔
      ((waitForConfigurationLoop allowable required s f rounds).failCount : ℚ) >
        allowable) ∧
    ((waitForConfigurationLoop allowable required s f rounds).expired = true →
      ((waitForConfigurationLoop allowable required s f rounds).outcome =
          CfsOutcome.success ↔
        ((waitForConfigurationLoop allowable required s f rounds).succCount : ℚ) ≥
          required)) ∧
    ((waitForConfigurationLoop allowable required s f rounds).expired = true →
      ((waitForConfigurationLoop allowable required s f rounds).outcome =
          CfsOutcome.timeout ↔
        ((waitForConfigurationLoop allowable required s f rounds).succCount : ℚ) <
          required)) := by
  induction rounds generalizing s f with
  | nil =>
    by_cases hs : (s : ℚ) ≥ required
    · simp [waitForConfigurationLoop, hs, not_lt.mpr hf, not_lt.mpr hs]
    · simp [waitForConfigurationLoop, hs, not_lt.mpr hf, lt_of_not_ge hs]
  | cons r rest ih =>
    simp only [waitForConfigurationLoop]
    by_cases hgt : ((f + r.failed : Nat) : ℚ) > allowable
    · rw [if_pos hgt]
      exact ⟨by simpa using hgt, by simp, by simp⟩
    · rw [if_neg hgt]
      by_cases hp : r.pending = 0
      · rw [if_pos hp]
        exact ⟨by simpa using hgt, by simp, by simp⟩
      · rw [if_neg hp]
        exact ih _ _ (le_of_not_lt hgt)

/-- C8: `wait_for_configuration` raises its exhausted-retries exception
exactly when the cumulative count of failed components exceeds
`(1 − success_threshold) · total`; and when the maximum duration expires
it returns success exactly when the count of configured components is at
least `success_threshold · total`, raising the configuration-timeout
exception exactly otherwise. -/
theorem c8_wait_for_configuration (total : Nat) (threshold : ℚ)
    (rounds : List CfsRound) (h1 : threshold ≤ 1) :
    ((wait_for_configuration total threshold rounds).outcome =
        CfsOutcome.exhaustedRetries ↔
      ((wait_for_configuration total threshold rounds).failCount : ℚ) >
        (1 - threshold) * total) ∧
    ((wait_for_configuration total threshold rounds).expired = true →
      ((wait_for_configuration total threshold rounds).outcome =
          CfsOutcome.success ↔
        ((wait_for_configuration total threshold rounds).succCount : ℚ) ≥
          threshold * total)) ∧
    ((wait_for_configuration total threshold rounds).expired = true →
      ((wait_for_configuration total threshold rounds).outcome =
          CfsOutcome.timeout ↔
        ((wait_for_configuration total threshold rounds).succCount : ℚ) <
          threshold * total)) := by
  have hf : ((0 : Nat) : ℚ) ≤ (1 - threshold) * total := by
    have h2 : (0 : ℚ) ≤ 1 - threshold := by linarith
    have h3 : (0 : ℚ) ≤ (total : ℚ) := Nat.cast_nonneg total
    simpa using mul_nonneg h2 h3
  have h := waitForConfigurationLoop_spec ((1 - threshold) * total)
    ((total : ℚ) - (1 - threshold) * total) rounds 0 0 hf
  have hreq : (total : ℚ) - (1 - threshold) * total = threshold * total := by ring
  rw [hreq] at h
  simpa only [wait_for_configuration, hreq] using h

/-- C8 witness: four nodes with threshold one half allow two failures; a
round reporting three failed components trips the exhausted-retries
exception. -/
theorem c8_wait_for_configuration_witness :
    ((1 : ℚ)/2 ≤ 1) ∧
    (wait_for_configuration 4 (1/2) [⟨1, 3, 0⟩]).outcome =
      CfsOutcome.exhaustedRetries := by
  refine ⟨by norm_num, ?_⟩
  have h := (c8_wait_for_configuration 4 (1/2) [⟨1, 3, 0⟩] (by norm_num)).1
  rw [h]
  norm_num [wait_for_configuration, waitForConfigurationLoop]

/-- Helper for C1: the failed set coming out of a status polling loop is
contained in the failed set going in together with the failures reported
by the polls. -/
theorem statusWaitLoop_failed_subset (polls : List (Option StatusResult))
    (nodes_on failed : Finset String) (errors : ErrMap) :
    (statusWaitLoop nodes_on failed errors polls).2.1 ⊆
      failed ∪ pollFailures polls := by
  induction polls generalizing nodes_on failed errors with
  | nil => simp [statusWaitLoop, pollFailures]
  | cons p rest ih =>
    simp only [statusWaitLoop]
    by_cases h : nodes_on = ∅
    · rw [if_pos h]
      exact Finset.subset_union_left
    · rw [if_neg h]
      cases p with
      | none =>
        refine (ih _ _ _).trans ?_
        simp [pollFailures]
      | some s =>
        refine (ih _ _ _).trans ?_
        intro x hx
        simp only [Finset.mem_union, pollFailures] at hx ⊢
        tauto

/-- C1 counterexample: with one target node and an environment in which
every CAPMC response is error-free but never reports the node off, the
node is still powered on when the hard (forceful) window expires, yet the
returned failed-node set is empty — contradicting the claim that such
nodes are included in `failed_nodes`. -/
theorem c1_counterexample :
    "n1" ∈ (graceful_shutdown_run {"n1"} c1Env).nodes_on ∧
    "n1" ∉ (graceful_shutdown_run {"n1"} c1Env).failed := by
  constructor
  · decide
  · decide

/-- C1 (amended): the failed-node set returned by `graceful_shutdown`
contains only nodes attributed a per-node error by some power-off or
status response during the run; a target node that is still powered on
when the hard window expires is logged but not added to the failed set. -/
theorem c1_failed_nodes_from_error_reports (nodes : Finset String)
    (env : ShutdownEnv) :
    (graceful_shutdown_run nodes env).failed ⊆ reportedFailures env := by
  simp only [graceful_shutdown_run]
  split
  · exact Finset.empty_subset _
  · split
    · intro x hx
      simp only [Finset.empty_union] at hx
      simp only [reportedFailures, Finset.mem_union]
      exact Or.inl (Or.inl (Or.inl (Or.inl hx)))
    · split
      · refine (statusWaitLoop_failed_subset _ _ _ _).trans ?_
        intro x hx
        simp only [Finset.mem_union, Finset.empty_union, Finset.mem_sdiff] at hx
        simp only [reportedFailures, Finset.mem_union]
        rcases hx with (hx | hx) | hx
        · exact Or.inl (Or.inl (Or.inl (Or.inl hx)))
        · exact Or.inl (Or.inl (Or.inl (Or.inr hx.1)))
        · exact Or.inl (Or.inl (Or.inr hx))
      · refine (statusWaitLoop_failed_subset _ _ _ _).trans ?_
        refine Finset.union_subset
          (Finset.union_subset ((statusWaitLoop_failed_subset _ _ _ _).trans ?_) ?_) ?_
        · intro x hx
          simp only [Finset.mem_union, Finset.empty_union, Finset.mem_sdiff] at hx
          simp only [reportedFailures, Finset.mem_union]
          rcases hx with (hx | hx) | hx
          · exact Or.inl (Or.inl (Or.inl (Or.inl hx)))
          · exact Or.inl (Or.inl (Or.inl (Or.inr hx.1)))
          · exact Or.inl (Or.inl (Or.inr hx))
        · intro x hx
          simp only [reportedFailures, Finset.mem_union]
          exact Or.inl (Or.inr hx)
        · intro x hx
          simp only [reportedFailures, Finset.mem_union]
          exact Or.inr hx

end Boa
